import Mathlib

/-!
Verification of the AIOps dashboard pipeline (src/app.py): the
fetch → parse → group → aggregate → classify → schedule pipeline is embedded
shallowly.  Raw backend responses are JSON-like Python values; the Python
primitives the code relies on (truthiness, dict membership, subscripting,
dict.get, float(), iteration) are modelled explicitly so that the exception
behaviour of `process_metric` and friends is visible.  Machine floats are
modelled by ℚ at the value level, with the IEEE special values that the
delta-percentage expression can produce modelled by an explicit `FloatVal`
type.
-/

namespace AIOPS

/-- JSON-like Python value, as returned by `response.json()` in
`PrometheusClient.query` (or `None` for a failed query, modelled `null`). -/
inductive Jv where
  | null
  | bool (b : Bool)
  | num (q : ℚ)
  | str (s : String)
  | arr (xs : List Jv)
  | obj (kvs : List (String × Jv))

/-- Python truthiness of a value: `None`, `False`, zero, and empty
containers/strings are falsy. -/
def truthy : Jv → Bool
  | .null => false
  | .bool b => b
  | .num q => decide (q ≠ 0)
  | .str s => decide (s ≠ "")
  | .arr xs => !xs.isEmpty
  | .obj kvs => !kvs.isEmpty

/-- Python `k in v` for a string `k`: key membership for a dict, element
membership for a list, substring test for a string; `TypeError` otherwise. -/
def containsKey (v : Jv) (k : String) : Except String Bool :=
  match v with
  | .obj kvs => .ok (kvs.lookup k).isSome
  | .arr xs => .ok (xs.any (fun x => match x with | .str s => s == k | _ => false))
  | .str s => .ok (decide ((s.splitOn k).length ≠ 1))
  | _ => .error "TypeError: argument of type is not iterable"

/-- Python `v[k]` for a string key `k`: dict lookup (`KeyError` when the key
is absent); `TypeError` on every other type. -/
def getItemS (v : Jv) (k : String) : Except String Jv :=
  match v with
  | .obj kvs =>
    match kvs.lookup k with
    | some x => .ok x
    | none => .error ("KeyError: " ++ k)
  | _ => .error "TypeError: not subscriptable by str"

/-- Python `v[i]` for a small non-negative integer index: list/str indexing
(`IndexError` out of range), `KeyError` for a string-keyed dict,
`TypeError` otherwise. -/
def getItemN (v : Jv) (i : ℕ) : Except String Jv :=
  match v with
  | .arr xs =>
    match xs.get? i with
    | some x => .ok x
    | none => .error "IndexError"
  | .str s =>
    match s.toList.get? i with
    | some c => .ok (.str (String.singleton c))
    | none => .error "IndexError"
  | .obj _ => .error "KeyError"
  | _ => .error "TypeError: not subscriptable"

/-- Python `v.get(k, d)`: only dicts have `.get`; every other receiver
raises `AttributeError`. -/
def dictGet (v : Jv) (k : String) (d : Jv) : Except String Jv :=
  match v with
  | .obj kvs => .ok ((kvs.lookup k).getD d)
  | _ => .error "AttributeError: no attribute get"

/-- Python iteration `for x in v`: list elements, string characters, dict
keys; `TypeError` otherwise. -/
def pyIter : Jv → Except String (List Jv)
  | .arr xs => .ok xs
  | .str s => .ok (s.toList.map (fun c => .str (String.singleton c)))
  | .obj kvs => .ok (kvs.map (fun kv => .str kv.1))
  | _ => .error "TypeError: not iterable"

/-- Python `str(v)` restricted to the label values the parser applies it to:
a string label is kept as is; non-string values get a printable rendering
(the claims only depend on the string and default cases). -/
def pyStr : Jv → String
  | .str s => s
  | .null => "None"
  | .bool b => if b then "True" else "False"
  | .num q => toString q.num ++ (if q.den = 1 then ".0" else "/" ++ toString q.den)
  | .arr _ => "[...]"
  | .obj _ => "\x7b...\x7d"

/-- Numeric value of a list of decimal digit characters. -/
def digitsNat (cs : List Char) : ℕ :=
  cs.foldl (fun n c => n * 10 + (c.toNat - 48)) 0

/-- Parse an unsigned decimal literal (digits, optionally a dot and more
digits, at least one digit overall) to a rational. -/
def parseUnsigned (cs : List Char) : Option ℚ :=
  match cs.span (fun c => c.isDigit) with
  | (ip, []) => if ip.isEmpty then none else some ((digitsNat ip : ℚ))
  | (ip, c :: fp) =>
    if c = '.' ∧ fp.all (fun x => x.isDigit) ∧ ¬ (ip.isEmpty ∧ fp.isEmpty) then
      some ((digitsNat ip : ℚ) + (digitsNat fp : ℚ) / (10 : ℚ) ^ fp.length)
    else none

/-- Python `float(v)`: numbers and booleans convert; a string is parsed as a
decimal literal with optional sign (`ValueError` when it is not one); other
types raise `TypeError`.  The value domain is ℚ, so the IEEE specials that
`float` could also produce from "inf"/"nan" strings are outside this model. -/
def pyFloat : Jv → Except String ℚ
  | .num q => .ok q
  | .bool b => .ok (if b then 1 else 0)
  | .str s =>
    let r := match s.trim.toList with
      | [] => none
      | c :: rest =>
        if c = '-' then (parseUnsigned rest).map (fun q => -q)
        else if c = '+' then parseUnsigned rest
        else parseUnsigned (c :: rest)
    match r with
    | some q => .ok q
    | none => .error "ValueError: could not convert string to float"
  | _ => .error "TypeError: float() argument"

/-- Python `datetime.fromtimestamp(v)`: accepts a number (or boolean),
raises `TypeError` otherwise; the instant is kept as the raw epoch value. -/
def fromtimestamp : Jv → Except String ℚ
  | .num q => .ok q
  | .bool b => .ok (if b then 1 else 0)
  | _ => .error "TypeError: fromtimestamp"

/-- One parsed sample row, as `process_metric` appends it: epoch timestamp,
float value, the raw label dict, and the `mode`/`device` label strings with
their "unknown" defaults already applied. -/
structure SampleRecord where
  timestamp : ℚ
  value : ℚ
  metric : Jv
  mode : String
  device : String

/-- Body of the per-item `try` block of `process_metric` (src/app.py lines
152-160): any error models the exception the corresponding Python
expression raises, which the surrounding `except` turns into a skip. -/
def parseItem (item : Jv) : Except String SampleRecord :=
  match dictGet item "metric" (.obj []) with
  | .error e => .error e
  | .ok minfo =>
    match getItemS item "value" with
    | .error e => .error e
    | .ok v =>
      match getItemN v 0 with
      | .error e => .error e
      | .ok t0 =>
        match fromtimestamp t0 with
        | .error e => .error e
        | .ok ts =>
          match getItemN v 1 with
          | .error e => .error e
          | .ok v1 =>
            match pyFloat v1 with
            | .error e => .error e
            | .ok val =>
              match dictGet minfo "mode" (.str "unknown") with
              | .error e => .error e
              | .ok modeJ =>
                match dictGet minfo "device" (.str "unknown") with
                | .error e => .error e
                | .ok deviceJ => .ok ⟨ts, val, minfo, pyStr modeJ, pyStr deviceJ⟩

/-- src/app.py lines 145-165, `process_metric`: the guard
`if not result or "data" not in result or not result["data"]["result"]`
evaluated left to right with Python semantics (so `result["data"]["result"]`
can raise when `"data"` maps to a dict without a `"result"` key), then one
record per item that parses, items that raise being skipped. -/
def process_metric (result : Jv) : Except String (List SampleRecord) :=
  if !truthy result then .ok []
  else
    match containsKey result "data" with
    | .error e => .error e
    | .ok hasData =>
      if !hasData then .ok []
      else
        match getItemS result "data" with
        | .error e => .error e
        | .ok d =>
          match getItemS d "result" with
          | .error e => .error e
          | .ok res =>
            if !truthy res then .ok []
            else
              match pyIter res with
              | .error e => .error e
              | .ok items => .ok (items.filterMap (fun it => (parseItem it).toOption))

/-- src/app.py lines 132-143: the fixed query catalog, in source order. -/
def METRICS : List (String × String) :=
  [("cpu_usage", "100 - (avg by(instance)(rate(node_cpu_seconds_total\x7bmode=\"idle\"\x7d[1m])) * 100)"),
   ("memory_usage", "(node_memory_MemTotal_bytes - node_memory_MemFree_bytes) / node_memory_MemTotal_bytes * 100"),
   ("cpu_by_mode", "rate(node_cpu_seconds_total[1m]) * 100"),
   ("network_in", "sum by (device) (rate(node_network_receive_bytes_total\x7bdevice!=\"lo\"\x7d[1m]))"),
   ("network_out", "sum by (device) (rate(node_network_transmit_bytes_total\x7bdevice!=\"lo\"\x7d[1m]))"),
   ("network_errors", "sum by (device) (rate(node_network_receive_errs_total\x7bdevice!=\"lo\"\x7d[1m]) + rate(node_network_transmit_errs_total\x7bdevice!=\"lo\"\x7d[1m]))"),
   ("disk_reads", "sum by (device) (rate(node_disk_reads_completed_total[1m]))"),
   ("disk_writes", "sum by (device) (rate(node_disk_writes_completed_total[1m]))"),
   ("disk_io_time", "sum by (device) (rate(node_disk_io_time_seconds_total[1m]) * 100)"),
   ("disk_space", "(node_filesystem_size_bytes - node_filesystem_free_bytes) / node_filesystem_size_bytes * 100")]

/-- Loop body of `fetch_metrics` over a list of catalog entries: each query's
raw response (a function of the query expression) goes through
`process_metric`; an exception escaping `process_metric` propagates and
aborts the pass, exactly as in the unguarded Python loop. -/
def fetchList (backend : String → Jv) :
    List (String × String) → Except String (List (String × List SampleRecord))
  | [] => .ok []
  | nq :: rest =>
    match process_metric (backend nq.2) with
    | .error e => .error e
    | .ok recs =>
      match fetchList backend rest with
      | .error e => .error e
      | .ok tail => .ok ((nq.1, recs) :: tail)

/-- src/app.py lines 167-174, `fetch_metrics`: one full fetch pass over the
catalog, building `results[name] = process_metric(prom_client.query(query))`
in catalog order (the 100ms `time.sleep` has no effect on the result). -/
def fetch_metrics (backend : String → Jv) :
    Except String (List (String × List SampleRecord)) :=
  fetchList backend METRICS

/-- Whether `process_metric` completes without raising on this response. -/
def processOk (r : Jv) : Bool := (process_metric r).toOption.isSome

/-! ## MetricsClient retry model

`PrometheusClient.__init__` mounts an `HTTPAdapter` with
`Retry(total=3, backoff_factor=1, status_forcelist=[500, 502, 503, 504])`;
the retry machinery itself is urllib3's documented behaviour: `total` counts
retries after the initial request, and the backoff before the nth retry is
`0` for `n = 1` and `backoff_factor * 2^(n-1)` (capped at 120s) after. -/

/-- Retry budget configured at src/app.py line 110: retries after the
initial request. -/
def Retry_total : ℕ := 3

/-- Backoff factor configured at src/app.py line 111. -/
def Retry_backoff_factor : ℚ := 1

/-- Status forcelist configured at src/app.py line 112. -/
def status_forcelist : List ℕ := [500, 502, 503, 504]

/-- urllib3 `Retry.get_backoff_time` with `consecutive` errored attempts in
the history: zero before the first retry, else
`backoff_factor * 2^(consecutive - 1)`, capped at `BACKOFF_MAX = 120`. -/
def get_backoff_time (factor : ℚ) (consecutive : ℕ) : ℚ :=
  if consecutive ≤ 1 then 0 else min 120 (factor * 2 ^ (consecutive - 1))

/-- Outcome of one `session.get` through the retrying adapter: how many HTTP
requests were sent, the backoff sleeps inserted (each one before a retry),
and the final response status or a `MaxRetryError`. -/
structure HttpOutcome where
  attempts : ℕ
  sleeps : List ℚ
  result : Except String ℕ

/-- urllib3 retry loop for status-based retries: `backend a` is the HTTP
status the backend answers on attempt `a` (0-based).  A status outside the
forcelist is returned; a forcelisted status consumes one retry, sleeps the
backoff for the history built so far, and retries, until the budget is
exhausted and `MaxRetryError` is raised (with no sleep after the final
attempt). -/
def retryLoopAux (factor : ℚ) (forcelist : List ℕ) (backend : ℕ → ℕ) :
    ℕ → ℕ → HttpOutcome
  | attempt, remaining =>
    let status := backend attempt
    if forcelist.contains status then
      match remaining with
      | 0 => ⟨attempt + 1, [], .error "MaxRetryError"⟩
      | r + 1 =>
        let o := retryLoopAux factor forcelist backend (attempt + 1) r
        ⟨o.attempts, get_backoff_time factor (attempt + 1) :: o.sleeps, o.result⟩
    else ⟨attempt + 1, [], .ok status⟩

/-- The `session.get` of `PrometheusClient.query` with the mounted retry
configuration. -/
def sessionGet (backend : ℕ → ℕ) : HttpOutcome :=
  retryLoopAux Retry_backoff_factor status_forcelist backend 0 Retry_total

/-- src/app.py lines 116-127, `PrometheusClient.query`: any exception
(`MaxRetryError` from retry exhaustion, or `raise_for_status` on an error
status) is caught and surfaced as `None`; otherwise the JSON body is
returned. -/
def PrometheusClient_query (backend : ℕ → ℕ) (body : Jv) : Jv :=
  match (sessionGet backend).result with
  | .error _ => .null
  | .ok status => if 400 ≤ status then .null else body

/-! ## Aggregation and classification as the display layer computes them -/

/-- Arithmetic mean of a value column (`Series.mean()`), for the non-empty
groups the display guards for. -/
def mean (vs : List ℚ) : ℚ := vs.sum / (vs.length : ℚ)

/-- A float64 result at the value level: a finite value (rounding ignored)
or one of the IEEE specials. -/
inductive FloatVal where
  | finite (q : ℚ)
  | nan
  | inf
  | neginf
deriving DecidableEq

/-- Value-level float64 semantics of `(latest / mean - 1) * 100` as numpy
scalars evaluate it: division by zero yields `nan` (for `0/0`) or a signed
infinity, which then propagates through the subtraction and the product
instead of raising. -/
def deltaPctExpr (latest m : ℚ) : FloatVal :=
  if m = 0 then
    if latest = 0 then .nan else if 0 < latest then .inf else .neginf
  else .finite ((latest / m - 1) * 100)

/-- Delta percentage displayed for one series group (src/app.py lines
332-340, 557-564): current value is the group's last row
(`.iloc[-1]["value"]`), mean is the mean of the group's value column. -/
def groupDeltaPct (g : List SampleRecord) : Option FloatVal :=
  g.getLast?.map (fun last => deltaPctExpr last.value (mean (g.map (fun r => r.value))))

/-- Latest statistic as the display reads it (src/app.py lines 229-231,
333-335): the value of the group's last row in input order. -/
def latestValue (g : List SampleRecord) : Option ℚ :=
  g.getLast?.map (fun r => r.value)

/-- Fold step keeping the record with the maximum timestamp, later records
winning ties. -/
def maxTsFold (acc : Option SampleRecord) (r : SampleRecord) : Option SampleRecord :=
  match acc with
  | none => some r
  | some b => if b.timestamp ≤ r.timestamp then some r else some b

/-- Modelled from the spec: `latest` = value of the record with the maximum
timestamp in the group, ties broken by last-seen order (src/app.py computes
no such statistic; this is the spec's definition, for comparison). -/
def latestSpec (g : List SampleRecord) : Option ℚ :=
  (g.foldl maxTsFold none).map (fun r => r.value)

/-- src/app.py line 505: a mount point is counted critical when its current
usage is strictly above 85. -/
def isCriticalMount (v : ℚ) : Bool := decide (85 < v)

/-- src/app.py line 509: bar colour for a mount point, blue strictly below
85 and red otherwise. -/
def mountBarColor (v : ℚ) : String := if v < 85 then "#4b6cb7" else "#ff4b5c"

/-- src/app.py lines 542-543: the average-usage KPI flags usage strictly
above the 70 target. -/
def avgAboveTarget (avg : ℚ) : Bool := decide (70 < avg)

/-- src/app.py lines 499, 553, `lambda x: x.get("mountpoint", "")`: the
grouping key used for the `disk_space` metric; a record without the label
yields the empty string. -/
def mountpointKey (metric : Jv) : Except String Jv :=
  dictGet metric "mountpoint" (.str "")

/-- src/app.py lines 500, 554, `if mountpoint and mountpoint != "/boot"`:
a mount point is displayed only when its key is truthy and differs from
`/boot`; in particular the empty-string default is dropped. -/
def mountpointShown (mp : Jv) : Bool :=
  truthy mp && !(match mp with | .str s => s == "/boot" | _ => false)

/-! ## The main refresh loop -/

/-- Observable event of one pass of the `while True` loop in `main`. -/
inductive LoopEvent where
  | cycle (i : ℕ)
  | sleep (d : ℚ)
deriving DecidableEq

/-- Sidebar settings the refresh loop reads (src/app.py lines 584-585). -/
structure LoopConfig where
  auto_refresh : Bool
  refresh_rate : ℚ

/-- src/app.py lines 591-600: the first `n` iterations of the `while True`
loop.  Every iteration runs a full fetch-and-display cycle and then sleeps:
`refresh_rate` seconds when auto-refresh is on, 1 second otherwise. -/
def loopTrace (cfg : LoopConfig) : ℕ → List LoopEvent
  | 0 => []
  | n + 1 =>
    loopTrace cfg n ++
      [.cycle n, .sleep (if cfg.auto_refresh then cfg.refresh_rate else 1)]

/-- Number of fetch-display cycles in a loop trace. -/
def countCycles (tr : List LoopEvent) : ℕ :=
  tr.countP (fun e => match e with | .cycle _ => true | _ => false)

/-- Snapshot produced by iteration `i` of the loop: iteration `i` always
performs a fresh full fetch pass against whatever the backend answers during
that cycle. -/
def mainLoopSnapshots (backends : ℕ → String → Jv) (i : ℕ) :
    Except String (List (String × List SampleRecord)) :=
  fetch_metrics (backends i)

/-! ## Claims -/

/-- C1 (counterexample): against a backend answering HTTP 503 on every
attempt, the configured session performs 4 request attempts, not the claimed
3, and the backoff delays are 0s, 2s and 4s, not 1s then 2s. -/
theorem C1_counterexample :
    (sessionGet (fun _ => 503)).attempts = 4 ∧
    (sessionGet (fun _ => 503)).attempts ≠ 3 ∧
    (sessionGet (fun _ => 503)).sleeps = [0, 2, 4] := by
  norm_num [sessionGet, retryLoopAux, get_backoff_time, Retry_total, Retry_backoff_factor,
    status_forcelist]

/-- C1 (amended): for a query whose backend responds HTTP 503 on every
attempt, the session performs exactly 4 request attempts (1 initial + 3
retries), the backoff delays inserted before retries are 0s, 2s and 4s
(cumulative 6s, which is ≥ 3s), no backoff sleep occurs after the final
attempt (3 sleeps for 4 attempts), the transport raises MaxRetryError, and
`PrometheusClient.query` surfaces the failure by returning None. -/
theorem C1_theorem (backend : ℕ → ℕ) (body : Jv) (h : ∀ i, backend i = 503) :
    (sessionGet backend).attempts = 4 ∧
    (sessionGet backend).sleeps = [0, 2, 4] ∧
    (sessionGet backend).sleeps.sum = 6 ∧
    (sessionGet backend).sleeps.length = (sessionGet backend).attempts - 1 ∧
    (sessionGet backend).result = Except.error "MaxRetryError" ∧
    PrometheusClient_query backend body = Jv.null := by
  have hs : sessionGet backend = ⟨4, [0, 2, 4], Except.error "MaxRetryError"⟩ := by
    norm_num [sessionGet, retryLoopAux, get_backoff_time, Retry_total, Retry_backoff_factor,
      status_forcelist, h]
  refine ⟨by rw [hs], by rw [hs], by rw [hs]; norm_num, by rw [hs]; rfl, by rw [hs], ?_⟩
  rw [PrometheusClient_query, hs]

/-- C1 (witness): the amended statement at the concrete all-503 backend. -/
theorem C1_witness :
    (sessionGet (fun _ => 503)).attempts = 4 ∧
    (sessionGet (fun _ => 503)).sleeps = [0, 2, 4] ∧
    (sessionGet (fun _ => 503)).sleeps.sum = 6 ∧
    (sessionGet (fun _ => 503)).sleeps.length = (sessionGet (fun _ => 503)).attempts - 1 ∧
    (sessionGet (fun _ => 503)).result = Except.error "MaxRetryError" ∧
    PrometheusClient_query (fun _ => 503) Jv.null = Jv.null :=
  C1_theorem (fun _ => 503) Jv.null (fun _ => rfl)

/-- C2 (counterexample): a response that has a `data` key whose dict lacks
the `result` key makes `process_metric` raise `KeyError` instead of
returning an empty sequence. -/
theorem C2_counterexample :
    process_metric (Jv.obj [("data", Jv.obj [])]) = Except.error "KeyError: result" := by
  rfl

/-- C2 (amended): `process_metric` returns an empty sequence without raising
for a `None`/falsy response, for a response lacking the `data` key, and for
a response whose `data.result` collection is present but empty; however a
response whose `data` dict lacks the `result` key raises `KeyError` (the
guard subscripts `result["data"]["result"]` unconditionally). -/
theorem C2_theorem :
    (process_metric Jv.null = Except.ok []) ∧
    (∀ r : Jv, truthy r = false → process_metric r = Except.ok []) ∧
    (∀ kvs : List (String × Jv), kvs.lookup "data" = none →
      process_metric (Jv.obj kvs) = Except.ok []) ∧
    (∀ rest : List (String × Jv),
      process_metric (Jv.obj [("data", Jv.obj (("result", Jv.arr []) :: rest))]) =
        Except.ok []) ∧
    (∀ kvs : List (String × Jv), kvs.lookup "result" = none →
      process_metric (Jv.obj [("data", Jv.obj kvs)]) =
        Except.error "KeyError: result") := by
  refine ⟨rfl, ?_, ?_, fun rest => rfl, ?_⟩
  · intro r h
    rw [process_metric, h]
    rfl
  · intro kvs h
    by_cases he : truthy (Jv.obj kvs) = true
    · rw [process_metric, he]
      simp [containsKey, h]
    · rw [process_metric, Bool.eq_false_iff.mpr he]
      rfl
  · intro kvs h
    simp [process_metric, truthy, containsKey, getItemS, List.lookup, h]

/-- C2 (witness): the amended statement evaluated at the concrete inputs of
its hypotheses-carrying parts. -/
theorem C2_witness :
    process_metric (Jv.obj [("data", Jv.obj [])]) = Except.error "KeyError: result" :=
  C2_theorem.2.2.2.2 [] rfl

/-- C3 (confirmed): for every batch of result items, `process_metric`
returns exactly the records of the items that parse, in order — an item
whose parse raises is skipped and every well-formed item of the batch
contributes its record, so one malformed item never aborts or empties the
batch. -/
theorem C3_theorem (xs : List Jv) :
    process_metric (Jv.obj [("data", Jv.obj [("result", Jv.arr xs)])]) =
      Except.ok (xs.filterMap (fun it => (parseItem it).toOption)) ∧
    ∀ it ∈ xs, ∀ r, parseItem it = Except.ok r →
      r ∈ xs.filterMap (fun it => (parseItem it).toOption) := by
  constructor
  · cases xs with
    | nil => rfl
    | cons a t => rfl
  · intro it hmem r hr
    exact List.mem_filterMap.mpr ⟨it, hmem, by rw [hr]; rfl⟩

/-- C4 (counterexample): a group whose only sample has value 0 has mean 0,
and its displayed delta percentage is NaN (the float 0/0), not 0. -/
theorem C4_counterexample :
    groupDeltaPct [⟨1, 0, Jv.obj [], "unknown", "unknown"⟩] = some FloatVal.nan ∧
    some FloatVal.nan ≠ some (FloatVal.finite 0) := by
  refine ⟨by norm_num [groupDeltaPct, mean, deltaPctExpr], by decide⟩

/-- C4 (amended): for every non-empty series group, the displayed delta
percentage equals `(latest / mean - 1) * 100` when the group's mean is
nonzero; when the mean is 0 the code divides anyway and the result is an
IEEE special — NaN for latest 0, a signed infinity otherwise — and in
particular is never the finite value 0. -/
theorem C4_theorem (g : List SampleRecord) (last : SampleRecord)
    (hl : g.getLast? = some last) :
    (mean (g.map (fun r => r.value)) ≠ 0 →
      groupDeltaPct g =
        some (FloatVal.finite ((last.value / mean (g.map (fun r => r.value)) - 1) * 100))) ∧
    (mean (g.map (fun r => r.value)) = 0 →
      groupDeltaPct g ≠ some (FloatVal.finite 0) ∧
      (groupDeltaPct g = some FloatVal.nan ∨ groupDeltaPct g = some FloatVal.inf ∨
        groupDeltaPct g = some FloatVal.neginf)) := by
  have hg : groupDeltaPct g =
      some (deltaPctExpr last.value (mean (g.map (fun r => r.value)))) := by
    rw [groupDeltaPct, hl]
    rfl
  constructor
  · intro hm
    rw [hg, deltaPctExpr, if_neg hm]
  · intro hm
    rw [hg, deltaPctExpr, if_pos hm]
    by_cases h0 : last.value = 0
    · rw [if_pos h0]
      exact ⟨by simp, Or.inl rfl⟩
    · rw [if_neg h0]
      by_cases hpos : 0 < last.value
      · rw [if_pos hpos]
        exact ⟨by simp, Or.inr (Or.inl rfl)⟩
      · rw [if_neg hpos]
        exact ⟨by simp, Or.inr (Or.inr rfl)⟩

/-- C4 (witness): the amended statement at the one-sample group with value
0. -/
theorem C4_witness :
    (mean ([(⟨1, 0, Jv.obj [], "unknown", "unknown"⟩ : SampleRecord)].map (fun r => r.value)) ≠ 0 →
      groupDeltaPct [(⟨1, 0, Jv.obj [], "unknown", "unknown"⟩ : SampleRecord)] =
        some (FloatVal.finite
          (((⟨1, 0, Jv.obj [], "unknown", "unknown"⟩ : SampleRecord).value /
              mean ([(⟨1, 0, Jv.obj [], "unknown", "unknown"⟩ : SampleRecord)].map
                (fun r => r.value)) - 1) * 100))) ∧
    (mean ([(⟨1, 0, Jv.obj [], "unknown", "unknown"⟩ : SampleRecord)].map (fun r => r.value)) = 0 →
      groupDeltaPct [(⟨1, 0, Jv.obj [], "unknown", "unknown"⟩ : SampleRecord)] ≠
        some (FloatVal.finite 0) ∧
      (groupDeltaPct [(⟨1, 0, Jv.obj [], "unknown", "unknown"⟩ : SampleRecord)] =
          some FloatVal.nan ∨
        groupDeltaPct [(⟨1, 0, Jv.obj [], "unknown", "unknown"⟩ : SampleRecord)] =
          some FloatVal.inf ∨
        groupDeltaPct [(⟨1, 0, Jv.obj [], "unknown", "unknown"⟩ : SampleRecord)] =
          some FloatVal.neginf)) :=
  C4_theorem [⟨1, 0, Jv.obj [], "unknown", "unknown"⟩] ⟨1, 0, Jv.obj [], "unknown", "unknown"⟩ rfl

/-- C5 (counterexample): a mount point at exactly 85 is not counted
critical, and an average of exactly 70 is not flagged above target — the
boundary goes to the lower bucket, contrary to the claimed inclusive lower
bounds (only the bar colour treats 85 as red). -/
theorem C5_counterexample :
    isCriticalMount 85 = false ∧ avgAboveTarget 70 = false ∧
    mountBarColor 85 = "#ff4b5c" := by
  exact ⟨rfl, rfl, rfl⟩

/-- C5 (amended): the thresholds are strict lower bounds: a latest value is
counted critical exactly when it is strictly above `criticalPct` (85), the
average is flagged above target exactly when strictly above `warningPct`
(70), so values exactly at a threshold fall into the lower-severity bucket
— except that the bar colour is red exactly from 85 inclusive upward. -/
theorem C5_theorem (v : ℚ) :
    (isCriticalMount v = true ↔ 85 < v) ∧
    (avgAboveTarget v = true ↔ 70 < v) ∧
    (mountBarColor v = "#ff4b5c" ↔ 85 ≤ v) ∧
    (mountBarColor v = "#4b6cb7" ↔ v < 85) := by
  refine ⟨by simp [isCriticalMount], by simp [avgAboveTarget], ?_, ?_⟩
  · rw [mountBarColor]
    by_cases h : v < 85
    · rw [if_pos h]
      simp [not_le.mpr h]
    · rw [if_neg h]
      simp [not_lt.mp h]
  · rw [mountBarColor]
    by_cases h : v < 85
    · rw [if_pos h]
      simp [h]
    · rw [if_neg h]
      simp [h]

/-- C6 (counterexample): a sample record whose label dict is empty gets
`mode = "unknown"` and `device = "unknown"`, but its mountpoint grouping key
is the empty string — which differs from "unknown" — and the empty key makes
the record invisible to the storage display, i.e. it is dropped rather than
grouped under a sentinel. -/
theorem C6_counterexample :
    (parseItem (Jv.obj [("metric", Jv.obj []),
        ("value", Jv.arr [Jv.num 1000, Jv.num 42])])).toOption.map
      (fun r => (r.mode, r.device)) = some ("unknown", "unknown") ∧
    mountpointKey (Jv.obj []) = Except.ok (Jv.str "") ∧
    mountpointShown (Jv.str "") = false ∧
    pyStr (Jv.str "") ≠ "unknown" := by
  exact ⟨rfl, rfl, rfl, by decide⟩

/-- C6 (amended): a record lacking the `mode` or `device` label is assigned
the sentinel value "unknown" for those two dimensions, but for the
mountpoint dimension a record lacking the label defaults to the empty
string and is then excluded by the display filter — dropped, not assigned
to "unknown". -/
theorem C6_theorem (kvs : List (String × Jv)) (ts v : ℚ)
    (hmode : kvs.lookup "mode" = none) (hdev : kvs.lookup "device" = none)
    (hmp : kvs.lookup "mountpoint" = none) :
    parseItem (Jv.obj [("metric", Jv.obj kvs), ("value", Jv.arr [Jv.num ts, Jv.num v])]) =
      Except.ok ⟨ts, v, Jv.obj kvs, "unknown", "unknown"⟩ ∧
    mountpointKey (Jv.obj kvs) = Except.ok (Jv.str "") ∧
    mountpointShown (Jv.str "") = false := by
  refine ⟨?_, ?_, rfl⟩
  · simp [parseItem, dictGet, getItemS, getItemN, fromtimestamp, pyFloat, List.lookup,
      hmode, hdev, pyStr]
  · simp [mountpointKey, dictGet, hmp]

/-- C6 (witness): the amended statement at an empty label dict. -/
theorem C6_witness :
    parseItem (Jv.obj [("metric", Jv.obj []), ("value", Jv.arr [Jv.num 1000, Jv.num 42])]) =
      Except.ok ⟨1000, 42, Jv.obj [], "unknown", "unknown"⟩ ∧
    mountpointKey (Jv.obj []) = Except.ok (Jv.str "") ∧
    mountpointShown (Jv.str "") = false :=
  C6_theorem [] 1000 42 rfl rfl rfl

/-- Helper: when every catalog response parses without raising, the fetch
pass succeeds and yields one entry per catalog entry in order, each carrying
its parsed records. -/
theorem fetchList_ok (backend : String → Jv) (l : List (String × String))
    (h : ∀ nq ∈ l, processOk (backend nq.2) = true) :
    fetchList backend l =
      Except.ok (l.map (fun nq =>
        (nq.1, (process_metric (backend nq.2)).toOption.getD []))) := by
  induction l with
  | nil => rfl
  | cons a t ih =>
    have ha := h a (List.mem_cons_self a t)
    obtain ⟨v, hv⟩ : ∃ v, process_metric (backend a.2) = Except.ok v := by
      cases hp : process_metric (backend a.2) with
      | ok v => exact ⟨v, rfl⟩
      | error e =>
        rw [processOk, hp] at ha
        simp [Except.toOption] at ha
    have ht := ih (fun nq hm => h nq (List.mem_cons_of_mem a hm))
    simp only [fetchList, hv, ht, List.map_cons, Except.toOption, Option.getD_some]

/-- C7 (confirmed): on every iteration of the refresh loop whose responses
parse without raising, the produced snapshot has exactly one entry per
catalog metric in catalog order, and every metric whose query failed
(`MetricsClient` returned None) contributes an empty entry — the rest of
the catalog and subsequent cycles are processed regardless. -/
theorem C7_theorem (backends : ℕ → String → Jv) (i : ℕ)
    (hok : ∀ q, processOk (backends i q) = true) :
    mainLoopSnapshots backends i =
      Except.ok (METRICS.map (fun nq =>
        (nq.1, (process_metric (backends i nq.2)).toOption.getD []))) ∧
    ∀ nq ∈ METRICS, backends i nq.2 = Jv.null →
      (process_metric (backends i nq.2)).toOption.getD [] = [] := by
  constructor
  · exact fetchList_ok (backends i) METRICS (fun nq _ => hok nq.2)
  · intro nq _ hnull
    rw [hnull]
    rfl

/-- C7 (witness): the statement at the backend whose every query fails. -/
theorem C7_witness :
    mainLoopSnapshots (fun _ _ => Jv.null) 0 =
      Except.ok (METRICS.map (fun nq =>
        (nq.1, (process_metric Jv.null).toOption.getD []))) ∧
    ∀ nq ∈ METRICS, Jv.null = Jv.null →
      (process_metric Jv.null).toOption.getD [] = [] :=
  C7_theorem (fun _ _ => Jv.null) 0 (fun _ => rfl)

/-- C8 (counterexample): in a group whose records arrive in decreasing
timestamp order, the display reads the value of the last row (7, at
timestamp 1), not the value of the record with the maximum timestamp (5, at
timestamp 2). -/
theorem C8_counterexample :
    latestValue [⟨2, 5, Jv.obj [], "unknown", "unknown"⟩,
        ⟨1, 7, Jv.obj [], "unknown", "unknown"⟩] = some 7 ∧
    latestSpec [⟨2, 5, Jv.obj [], "unknown", "unknown"⟩,
        ⟨1, 7, Jv.obj [], "unknown", "unknown"⟩] = some 5 ∧
    (7 : ℚ) ≠ 5 := by
  refine ⟨rfl, rfl, by norm_num⟩

/-- Helper: folding for the maximum-timestamp record (ties to the later
record) returns the group's last record whenever that record's timestamp is
maximal. -/
theorem foldl_maxTsFold_getLast :
    ∀ (g : List SampleRecord) (r : SampleRecord), g.getLast? = some r →
      (∀ s ∈ g, s.timestamp ≤ r.timestamp) →
      ∀ acc : Option SampleRecord, (∀ b, acc = some b → b.timestamp ≤ r.timestamp) →
      g.foldl maxTsFold acc = some r
  | [], r, hlast, _, _, _ => by simp at hlast
  | [a], r, hlast, hmax, acc, hacc => by
    have har : a = r := by simpa using hlast
    subst har
    cases acc with
    | none => rfl
    | some b =>
      have hb := hacc b rfl
      simp [List.foldl, maxTsFold, hb]
  | a :: a2 :: t2, r, hlast, hmax, acc, hacc => by
    have hlast2 : (a2 :: t2).getLast? = some r := by
      rwa [List.getLast?_cons_cons] at hlast
    have hmax2 : ∀ s ∈ a2 :: t2, s.timestamp ≤ r.timestamp :=
      fun s hs => hmax s (List.mem_cons_of_mem a hs)
    have ha : a.timestamp ≤ r.timestamp := hmax a (List.mem_cons_self a (a2 :: t2))
    have step : (a :: a2 :: t2).foldl maxTsFold acc =
        (a2 :: t2).foldl maxTsFold (maxTsFold acc a) := rfl
    rw [step]
    refine foldl_maxTsFold_getLast (a2 :: t2) r hlast2 hmax2 (maxTsFold acc a) ?_
    intro b hb
    cases acc with
    | none =>
      rw [show maxTsFold none a = some a from rfl] at hb
      injection hb with hba
      rw [← hba]
      exact ha
    | some c =>
      have hc := hacc c rfl
      rw [show maxTsFold (some c) a =
          if c.timestamp ≤ a.timestamp then some a else some c from rfl] at hb
      split at hb
      · injection hb with hba
        rw [← hba]
        exact ha
      · injection hb with hbc
        rw [← hbc]
        exact hc

/-- C8 (amended): the reported latest statistic is the value of the last
record in the group's input order; whenever that last record's timestamp is
maximal in the group (in particular in the instant-query case of one sample
per series, or ties on the shared evaluation timestamp) this coincides with
the claimed "record with maximum timestamp, ties broken by last-seen
order". -/
theorem C8_theorem (g : List SampleRecord) (r : SampleRecord)
    (hlast : g.getLast? = some r) (hmax : ∀ s ∈ g, s.timestamp ≤ r.timestamp) :
    latestValue g = some r.value ∧ latestSpec g = some r.value := by
  constructor
  · rw [latestValue, hlast]
    rfl
  · rw [latestSpec,
      foldl_maxTsFold_getLast g r hlast hmax none (fun b hb => Option.noConfusion hb)]
    rfl

/-- C8 (witness): the amended statement at a one-record group. -/
theorem C8_witness :
    latestValue [⟨1, 7, Jv.obj [], "unknown", "unknown"⟩] = some (7 : ℚ) ∧
    latestSpec [⟨1, 7, Jv.obj [], "unknown", "unknown"⟩] = some (7 : ℚ) :=
  C8_theorem [⟨1, 7, Jv.obj [], "unknown", "unknown"⟩]
    ⟨1, 7, Jv.obj [], "unknown", "unknown"⟩ rfl
    (fun s hs => by
      rw [List.mem_singleton] at hs
      exact le_of_eq (congrArg SampleRecord.timestamp hs))

/-- C9 (counterexample): with auto-refresh disabled the loop still executes
a full fetch-display cycle on each iteration (sleeping 1 second instead of
the refresh rate): the first iteration's trace is a cycle followed by a 1s
sleep, and two iterations execute two cycles — not the claimed zero. -/
theorem C9_counterexample :
    loopTrace ⟨false, 15⟩ 1 = [LoopEvent.cycle 0, LoopEvent.sleep 1] ∧
    countCycles (loopTrace ⟨false, 15⟩ 2) = 2 := by
  exact ⟨rfl, rfl⟩

/-- C9 (amended): disabling auto-refresh does not stop the loop from
scheduling cycles: every iteration runs one full cycle whether auto-refresh
is on or off (so an in-flight cycle is trivially never cancelled), and the
only difference is the sleep after each cycle — 1 second when disabled
instead of the refresh rate. -/
theorem C9_theorem (rate : ℚ) (n : ℕ) :
    countCycles (loopTrace ⟨false, rate⟩ n) = n ∧
    (∀ e ∈ loopTrace ⟨false, rate⟩ n, ∀ d, e = LoopEvent.sleep d → d = 1) ∧
    countCycles (loopTrace ⟨true, rate⟩ n) = countCycles (loopTrace ⟨false, rate⟩ n) := by
  induction n with
  | zero => exact ⟨rfl, fun e he => by simp [loopTrace] at he, rfl⟩
  | succ m ih =>
    obtain ⟨ih1, ih2, ih3⟩ := ih
    refine ⟨?_, ?_, ?_⟩
    · rw [loopTrace, countCycles, List.countP_append]
      rw [countCycles] at ih1
      rw [ih1]
      rfl
    · intro e he d hd
      rw [loopTrace, List.mem_append] at he
      cases he with
      | inl h => exact ih2 e h d hd
      | inr h =>
        simp only [List.mem_cons, List.mem_singleton] at h
        cases h with
        | inl h =>
          rw [h] at hd
          exact LoopEvent.noConfusion hd
        | inr h =>
          cases h with
          | inl h =>
            rw [h] at hd
            injection hd with hde
            rw [← hde]
            rfl
          | inr h => simp at h
    · rw [loopTrace, loopTrace, countCycles, countCycles, List.countP_append,
        List.countP_append]
      rw [countCycles, countCycles] at ih3
      rw [ih3]
      simp [List.countP_cons]

/-- C10 (counterexample): a backend behaviour exists — every query answered
by a response whose `data` dict lacks the `result` key — for which the
fetch pass raises instead of returning a mapping at all, so the returned
mapping does not have the catalog's key set for all backend behaviours. -/
theorem C10_counterexample :
    fetch_metrics (fun _ => Jv.obj [("data", Jv.obj [])]) =
      Except.error "KeyError: result" := by
  rfl

/-- C10 (amended): for every backend behaviour whose responses do not
trigger the parser's uncaught exception (in particular for failed queries,
well-shaped responses, and responses with missing or empty data), the
mapping returned by `fetch_metrics` contains exactly one entry per catalog
metric, with its key sequence equal to the catalog's key sequence in
catalog insertion order. -/
theorem C10_theorem (backend : String → Jv)
    (hok : ∀ nq ∈ METRICS, processOk (backend nq.2) = true) :
    ∃ l, fetch_metrics backend = Except.ok l ∧
      l.map Prod.fst = METRICS.map Prod.fst :=
  ⟨_, fetchList_ok backend METRICS hok, by rw [List.map_map]; rfl⟩

/-- C10 (witness): the amended statement at the backend whose every query
fails. -/
theorem C10_witness :
    ∃ l, fetch_metrics (fun _ => Jv.null) = Except.ok l ∧
      l.map Prod.fst = METRICS.map Prod.fst :=
  C10_theorem (fun _ => Jv.null) (fun _ _ => rfl)

end AIOPS
